import Mathlib

set_option maxRecDepth 20000

/-!
Verification of the SVG overflow-correction engine (`SimpleOverflowFixer` in
`themes/carinthia/tooling/library/services/simple_overflow_fixer.py`) and the
multi-source lookup services (`tooling/library/services/content_lookup.py` and
`tooling/library/services/cover_lookup.py`) of the hugo-carinthia repository.

The Python code is embedded shallowly: SVG documents and elements are lists of
characters, Python floats are modelled as exact rationals, the specific regular
expressions used by the code are implemented as dedicated scanning functions
with the same matching semantics, and Python's ValueError (raised by `float`)
is modelled with `Except`.
-/

/-! ## String scanning primitives (models of the `re` / `str` operations used) -/

/-- Boolean sublist-prefix test on character lists. -/
def lPrefix : List Char → List Char → Bool
  | [], _ => true
  | _ :: _, [] => false
  | a :: as, b :: bs => a = b && lPrefix as bs

/-- Index of the first occurrence of `pat` as a contiguous sublist of `s`
(the semantics of searching for a literal pattern with `re.search` /
`str.find`). -/
def findSub (pat : List Char) : List Char → Option Nat
  | [] => if lPrefix pat [] then some 0 else none
  | c :: rest =>
    if lPrefix pat (c :: rest) then some 0 else (findSub pat rest).map (· + 1)

/-- Model of Python's `pat in s` substring test. -/
def containsSub (pat s : List Char) : Bool :=
  (findSub pat s).isSome

/-- Model of Python's `str.replace` (all non-overlapping occurrences, scanning
left to right), with fuel bounded by the length of the subject string. -/
def replaceAllFuel (pat rep : List Char) : Nat → List Char → List Char
  | 0, s => s
  | _ + 1, [] => []
  | fuel + 1, c :: rest =>
    if !pat.isEmpty && lPrefix pat (c :: rest) then
      rep ++ replaceAllFuel pat rep fuel ((c :: rest).drop pat.length)
    else
      c :: replaceAllFuel pat rep fuel rest

/-- Model of Python's `str.replace`. -/
def replaceAll (pat rep s : List Char) : List Char :=
  replaceAllFuel pat rep s.length s

/-- The characters Python's `\s` and `str.strip()` treat as whitespace (ASCII). -/
def isPySpace (c : Char) : Bool :=
  c = ' ' || c = '\t' || c = '\n' || c = '\r' || c = '\x0b' || c = '\x0c'

/-- Model of Python's `str.strip()`. -/
def pyStrip (s : List Char) : List Char :=
  ((s.dropWhile isPySpace).reverse.dropWhile isPySpace).reverse

/-- Characters matched by the regex class `[\d.]`. -/
def isDigitDot (c : Char) : Bool :=
  c.isDigit || c = '.'

/-- Model of `re.search(r'([\d.]+)', s)`: the first maximal run of digits and
dots. -/
def searchDigitRun : List Char → Option (List Char)
  | [] => none
  | c :: rest =>
    if isDigitDot c then some ((c :: rest).takeWhile isDigitDot)
    else searchDigitRun rest

/-- Numeric value of a digit string. -/
def digitsVal (ds : List Char) : Nat :=
  ds.foldl (fun a c => a * 10 + (c.toNat - 48)) 0

/-- Exponent part of Python's `float()` grammar: a run of digits after an
optional sign, which must consume the rest of the string. -/
def parseExpDigits (m : ℚ) (neg : Bool) (r : List Char) : Option ℚ :=
  let ds := r.takeWhile Char.isDigit
  if ds.isEmpty then none
  else if !(r.dropWhile Char.isDigit).isEmpty then none
  else some (if neg then m / 10 ^ digitsVal ds else m * 10 ^ digitsVal ds)

/-- Optional `e`/`E` exponent suffix of Python's `float()` grammar. -/
def parseExp (m : ℚ) : List Char → Option ℚ
  | [] => some m
  | c :: r =>
    if c = 'e' || c = 'E' then
      match r with
      | '+' :: rr => parseExpDigits m false rr
      | '-' :: rr => parseExpDigits m true rr
      | rr => parseExpDigits m false rr
    else none

/-- Mantissa-and-exponent part of Python's `float()` grammar. -/
def parseFloatBody (sg : ℚ) (t : List Char) : Option ℚ :=
  let ip := t.takeWhile Char.isDigit
  let t2 := t.dropWhile Char.isDigit
  match t2 with
  | '.' :: r =>
    let fp := r.takeWhile Char.isDigit
    let t3 := r.dropWhile Char.isDigit
    if ip.isEmpty && fp.isEmpty then none
    else (parseExp ((digitsVal ip : ℚ) + (digitsVal fp : ℚ) / 10 ^ fp.length) t3).map (sg * ·)
  | _ =>
    if ip.isEmpty then none
    else (parseExp (digitsVal ip : ℚ) t2).map (sg * ·)

/-- Model of Python's `float(s)` on decimal notation: surrounding whitespace,
an optional sign, digits with an optional fractional part, and an optional
exponent. A string outside this grammar raises ValueError, modelled as `none`. -/
def parseFloat (s : List Char) : Option ℚ :=
  match pyStrip s with
  | '+' :: r => parseFloatBody 1 r
  | '-' :: r => parseFloatBody (-1) r
  | r => parseFloatBody 1 r

/-- Decimal digits of a natural number (with fuel). -/
def natDigits : Nat → Nat → List Char
  | 0, _ => []
  | _, 0 => []
  | fuel + 1, n => natDigits fuel (n / 10) ++ [Char.ofNat (48 + n % 10)]

/-- Decimal rendering of a natural number. -/
def natToChars (n : Nat) : List Char :=
  if n = 0 then ['0'] else natDigits n n

/-- Round a rational to the nearest integer, ties to even (the rounding used
by Python's fixed-point float formatting). -/
def rhe (q : ℚ) : ℤ :=
  let f : ℤ := Int.fdiv q.num q.den
  let r : ℚ := q - (f : ℚ)
  if r < 1/2 then f else if 1/2 < r then f + 1 else if f % 2 = 0 then f else f + 1

/-- Model of Python's `f'{x:.1f}'` format: one decimal digit, round half to
even, sign kept on negative values that round to zero. -/
def format1 (x : ℚ) : List Char :=
  let m := rhe (x * 10)
  let a := m.natAbs
  let ds := natToChars (a / 10) ++ '.' :: natToChars (a % 10)
  if m < 0 ∨ (m = 0 ∧ x < 0) then '-' :: ds else ds

/-- Smallest number of decimal fractional digits needed to write a rational
exactly, when one exists within the fuel. -/
def decExpAux : Nat → ℚ → Option Nat
  | 0, a => if a.den = 1 then some 0 else none
  | fuel + 1, a => if a.den = 1 then some 0 else (decExpAux fuel (a * 10)).map (· + 1)

/-- Left-pad a digit string with zeros to a given width. -/
def padZeros (k : Nat) (ds : List Char) : List Char :=
  List.replicate (k - ds.length) '0' ++ ds

/-- Model of Python's `str(float)` on the values the fixer produces: the exact
decimal expansion, with at least one fractional digit (`10.0`, `14.4`). -/
def pyFloatStr (x : ℚ) : List Char :=
  let sg : List Char := if x < 0 then ['-'] else []
  let a : ℚ := |x|
  match decExpAux 40 a with
  | some 0 => sg ++ natToChars a.num.natAbs ++ ".0".data
  | some (k + 1) =>
    let n := (a * 10 ^ (k + 1)).num.natAbs
    sg ++ natToChars (n / 10 ^ (k + 1)) ++ '.' :: padZeros (k + 1) (natToChars (n % 10 ^ (k + 1)))
  | none => sg ++ natToChars a.num.natAbs ++ '/' :: natToChars a.den

/-! ## Attribute extraction (models of the fixer's regex searches) -/

/-- Model of `re.search(name + '="([^"]*)"', s)` for a literal attribute
pattern: find the first occurrence of the literal `name="` and capture up to
the next quote; if no closing quote follows, the whole search fails. -/
def reCaptureQuoted (marker : List Char) (s : List Char) : Option (List Char) :=
  match findSub marker s with
  | none => none
  | some i =>
    let rest := s.drop (i + marker.length)
    match findSub ['"'] rest with
    | none => none
    | some j => some (rest.take j)

def xAttrMarker : List Char := "x=\"".data

def fsAttrMarker : List Char := "font-size=\"".data

def styleAttrMarker : List Char := "style=\"".data

def tlAttrMarker : List Char := "textLength=\"".data

def taAttrMarker : List Char := "text-anchor=\"".data

/-- Model of `re.search(r'font-size:\s*([\d.]+)', style)`: at each occurrence
of the literal `font-size:`, skip whitespace and capture a nonempty run of
digits and dots; otherwise keep searching at later occurrences. -/
def searchStyleFS : Nat → List Char → Option (List Char)
  | 0, _ => none
  | fuel + 1, s =>
    match findSub "font-size:".data s with
    | none => none
    | some i =>
      let rest := (s.drop (i + 10)).dropWhile isPySpace
      let run := rest.takeWhile isDigitDot
      if run.isEmpty then searchStyleFS fuel (s.drop (i + 1))
      else some run

/-- Model of `re.search(r'text-anchor:\s*([^;]+)', style)`: at each occurrence
of the literal `text-anchor:`, skip whitespace and capture a nonempty run of
non-semicolon characters, backtracking into the final whitespace character when
the run would otherwise be empty; otherwise keep searching. -/
def searchStyleAnchor : Nat → List Char → Option (List Char)
  | 0, _ => none
  | fuel + 1, s =>
    match findSub "text-anchor:".data s with
    | none => none
    | some i =>
      let rest := s.drop (i + 12)
      let ws := rest.takeWhile isPySpace
      let rest2 := rest.dropWhile isPySpace
      match rest2 with
      | c :: _ =>
        if c ≠ ';' then some (rest2.takeWhile (fun d => d ≠ ';'))
        else
          match ws.getLast? with
          | some w => some [w]
          | none => searchStyleAnchor fuel (s.drop (i + 1))
      | [] =>
        match ws.getLast? with
        | some w => some [w]
        | none => searchStyleAnchor fuel (s.drop (i + 1))

/-- Model of `re.sub(r'<[^>]*>', ' ', s)`: every `<`-to-`>` span becomes one
space. -/
def stripTags : Nat → List Char → List Char
  | 0, s => s
  | fuel + 1, s =>
    match findSub ['<'] s with
    | none => s
    | some i =>
      let rest := s.drop (i + 1)
      match findSub ['>'] rest with
      | none => s
      | some j => s.take i ++ ' ' :: stripTags fuel (rest.drop (j + 1))

/-- Model of `re.sub(r'font-size:\s*[\d.]+[^;]*', rep, style)`: replace every
occurrence of a `font-size:` declaration with digits, consuming up to the next
semicolon. -/
def subFontSizeFuel (rep : List Char) : Nat → List Char → List Char
  | 0, s => s
  | fuel + 1, s =>
    match findSub "font-size:".data s with
    | none => s
    | some i =>
      let rest := (s.drop (i + 10)).dropWhile isPySpace
      let run := rest.takeWhile isDigitDot
      if run.isEmpty then s.take (i + 1) ++ subFontSizeFuel rep fuel (s.drop (i + 1))
      else
        let rest2 := (rest.drop run.length).dropWhile (fun c => c ≠ ';')
        s.take i ++ rep ++ subFontSizeFuel rep fuel rest2

/-- Model of the `re.sub` call in `_try_font_reduction`. -/
def subFontSize (rep s : List Char) : List Char :=
  subFontSizeFuel rep s.length s

/-- Model of Python's `str.rstrip(';')`. -/
def rstripSemi (s : List Char) : List Char :=
  (s.reverse.dropWhile (fun c => c = ';')).reverse

/-! ## The overflow fixer (`SimpleOverflowFixer`) -/

/-- The only exception the fixer's helpers can raise: `float()`'s ValueError. -/
inductive PyErr where
  | valueError
deriving DecidableEq

deriving instance DecidableEq for Except

/-- `float(s)`, raising ValueError on failure. -/
def toFloatExc (s : List Char) : Except PyErr ℚ :=
  match parseFloat s with
  | some q => .ok q
  | none => .error .valueError

/-- The `style`-attribute half of `SimpleOverflowFixer._extract_font_size`. -/
def extract_font_size_style (e : List Char) : Except PyErr ℚ :=
  match reCaptureQuoted styleAttrMarker e with
  | some style =>
    match searchStyleFS style.length style with
    | some run => toFloatExc run
    | none => .ok 16
  | none => .ok 16

/-- Model of `SimpleOverflowFixer._extract_font_size`: `font-size` attribute
first (taking its first digit run), then the `style` attribute's `font-size:`
declaration, default 16.0. -/
def extract_font_size (e : List Char) : Except PyErr ℚ :=
  match reCaptureQuoted fsAttrMarker e with
  | some sizeStr =>
    match searchDigitRun sizeStr with
    | some run => toFloatExc run
    | none => extract_font_size_style e
  | none => extract_font_size_style e

/-- Model of `SimpleOverflowFixer._extract_text_content`: strip tags, then
strip whitespace. -/
def extract_text_content (e : List Char) : List Char :=
  pyStrip (stripTags e.length e)

/-- Fallback width estimate of `SimpleOverflowFixer._get_text_width`:
character count times font size times the 0.7 average-width constant. -/
def get_text_width_estimate (e : List Char) : Except PyErr ℚ :=
  match extract_font_size e with
  | .ok fs => .ok (((extract_text_content e).length : ℚ) * fs * (7/10))
  | .error er => .error er

/-- Model of `SimpleOverflowFixer._get_text_width`: a numeric `textLength`
attribute wins, otherwise the estimate. -/
def get_text_width (e : List Char) : Except PyErr ℚ :=
  match reCaptureQuoted tlAttrMarker e with
  | some cap =>
    match parseFloat cap with
    | some v => .ok v
    | none => get_text_width_estimate e
  | none => get_text_width_estimate e

/-- Model of `SimpleOverflowFixer._extract_text_anchor`: `text-anchor`
attribute, then the `style` attribute's declaration (stripped), default
`start`. -/
def extract_text_anchor (e : List Char) : List Char :=
  match reCaptureQuoted taAttrMarker e with
  | some a => a
  | none =>
    match reCaptureQuoted styleAttrMarker e with
    | some style =>
      match searchStyleAnchor style.length style with
      | some cap => pyStrip cap
      | none => "start".data
    | none => "start".data

/-- Model of `SimpleOverflowFixer._calculate_text_bounds`. -/
def calculate_text_bounds (x w : ℚ) (anchor : List Char) : ℚ × ℚ :=
  if anchor = "middle".data then (x - w/2, x + w/2)
  else if anchor = "end".data then (x - w, x)
  else (x, x + w)

/-- Model of `SimpleOverflowFixer._appears_to_overflow` (also used by
`_appears_to_overflow_after_fix`, which delegates to it). -/
def appears_to_overflow (e : List Char) (cw mg : ℚ) : Except PyErr Bool :=
  match reCaptureQuoted xAttrMarker e with
  | none => .ok false
  | some xs =>
    match parseFloat xs with
    | none => .ok false
    | some x =>
      match get_text_width e with
      | .error er => .error er
      | .ok w =>
        let b := calculate_text_bounds x w (extract_text_anchor e)
        .ok (if b.1 < mg ∨ b.2 > cw - mg then true else false)

/-- The literal replacement pattern `x="{v}"` used by `_try_reposition`. -/
def xAttrStr (v : List Char) : List Char :=
  "x=\"".data ++ v ++ "\"".data

/-- Model of `SimpleOverflowFixer._try_reposition`. -/
def try_reposition (e : List Char) (cw mg : ℚ) : Except PyErr (List Char) :=
  match reCaptureQuoted xAttrMarker e with
  | none => .ok e
  | some xs =>
    match parseFloat xs with
    | none => .ok e
    | some x =>
      match get_text_width e with
      | .error er => .error er
      | .ok w =>
        let anchor := extract_text_anchor e
        let b := calculate_text_bounds x w anchor
        let newX : ℚ :=
          if b.1 < mg then
            if anchor = "middle".data then mg + w/2
            else if anchor = "end".data then mg + w
            else mg
          else if b.2 > cw - mg then
            if anchor = "middle".data then (cw - mg) - w/2
            else if anchor = "end".data then cw - mg
            else (cw - mg) - w
          else x
        if |newX - x| > 1/10 then
          .ok (replaceAll (xAttrStr xs) (xAttrStr (format1 newX)) e)
        else .ok e

/-- The literal replacement pattern `font-size="{v}"`. -/
def fsAttrStr (v : List Char) : List Char :=
  "font-size=\"".data ++ v ++ "\"".data

/-- The literal replacement pattern `style="{v}"`. -/
def styleAttrStr (v : List Char) : List Char :=
  "style=\"".data ++ v ++ "\"".data

/-- The write-back step of `SimpleOverflowFixer._try_font_reduction`: update
the `font-size` attribute if present, else the `style` attribute (replacing
its `font-size:` declaration, or appending one), else prepend a `font-size`
attribute to the `<text` tag. -/
def writeBackFont (e : List Char) (ns : ℚ) : List Char :=
  match reCaptureQuoted fsAttrMarker e with
  | some cap =>
    replaceAll (fsAttrStr cap) (fsAttrStr (pyFloatStr ns ++ "px".data)) e
  | none =>
    match reCaptureQuoted styleAttrMarker e with
    | some style =>
      if containsSub "font-size:".data style then
        replaceAll (styleAttrStr style)
          (styleAttrStr (subFontSize ("font-size:".data ++ pyFloatStr ns ++ "px".data) style)) e
      else
        replaceAll (styleAttrStr style)
          (styleAttrStr (rstripSemi style ++ ";font-size:".data ++ pyFloatStr ns ++ "px".data)) e
    | none =>
      replaceAll "<text".data ("<text font-size=\"".data ++ pyFloatStr ns ++ "px\"".data) e

/-- Model of `SimpleOverflowFixer._try_font_reduction`: multiply the current
size by 0.9, floor at 10, write the result back. -/
def try_font_reduction (e : List Char) : Except PyErr (List Char) :=
  match extract_font_size e with
  | .error er => .error er
  | .ok s => .ok (writeBackFont e (max (s * (9/10)) 10))

/-- Model of `SimpleOverflowFixer._apply_minimal_fix`: reposition, then shrink
the font only if the repositioned element still appears to overflow. -/
def apply_minimal_fix (e : List Char) (cw mg : ℚ) : Except PyErr (List Char) :=
  match try_reposition e cw mg with
  | .error er => .error er
  | .ok fixed =>
    match appears_to_overflow fixed cw mg with
    | .error er => .error er
    | .ok true => try_font_reduction fixed
    | .ok false => .ok fixed

/-- Model of `re.finditer(r'<text[^>]*>.*?</text>', s, re.DOTALL)` used by
`SimpleOverflowFixer._find_text_elements`: repeated leftmost non-greedy
matches of an opening text tag through the first closing tag. -/
def find_text_elements_fuel : Nat → List Char → List (List Char)
  | 0, _ => []
  | fuel + 1, s =>
    match findSub "<text".data s with
    | none => []
    | some i =>
      let tail := s.drop (i + 5)
      match findSub ['>'] tail with
      | none => []
      | some j =>
        let afterGt := tail.drop (j + 1)
        match findSub "</text>".data afterGt with
        | none => []
        | some k =>
          ("<text".data ++ tail.take j ++ '>' :: afterGt.take k ++ "</text>".data)
            :: find_text_elements_fuel fuel (afterGt.drop (k + 7))

/-- Model of `SimpleOverflowFixer._find_text_elements`. -/
def find_text_elements (s : List Char) : List (List Char) :=
  find_text_elements_fuel s.length s

/-- The correction loop inside `SimpleOverflowFixer.fix_overflow`: each match
that appears to overflow is fixed, and the fixed element replaces the original
matched substring in the accumulated document when it differs. -/
def fixLoop (cw mg : ℚ) : List (List Char) → List Char → Except PyErr (List Char)
  | [], acc => .ok acc
  | m :: rest, acc =>
    match appears_to_overflow m cw mg with
    | .error er => .error er
    | .ok true =>
      match apply_minimal_fix m cw mg with
      | .error er => .error er
      | .ok fixed =>
        fixLoop cw mg rest (if fixed ≠ m then replaceAll m fixed acc else acc)
    | .ok false => fixLoop cw mg rest acc

/-- The body of `SimpleOverflowFixer.fix_overflow` for a fixed canvas width
and margin, before the exception handler. -/
def fix_overflow_core (cw mg : ℚ) (svg : List Char) : Except PyErr (List Char) :=
  fixLoop cw mg (find_text_elements svg) svg

/-- The `try:` block of `SimpleOverflowFixer.fix_overflow`: banner canvas 1024,
any other kind the cover canvas 236, margin 10 in both. -/
def fix_overflow_except (svg svgType : List Char) : Except PyErr (List Char) :=
  fix_overflow_core (if svgType = "banner".data then 1024 else 236) 10 svg

/-- Model of `SimpleOverflowFixer.fix_overflow`: any internal exception is
caught and the original markup returned. -/
def fix_overflow (svg svgType : List Char) : List Char :=
  match fix_overflow_except svg svgType with
  | .ok r => r
  | .error _ => svg

/-! ## The lookup services (`content_lookup.py`, `cover_lookup.py`) -/

/-- Model of the `Book` dataclass (`models/book.py`). -/
structure Book where
  isbn : String
  title : String
  author : String
  publication_year : Option Int
  pages : Option Int
  description : Option String
deriving DecidableEq

/-- Python truthiness of the optional `pages` field (`None` and `0` are falsy). -/
def truthyPages : Option Int → Bool
  | none => false
  | some n => n != 0

/-- Python truthiness of the optional `description` field (`None` and the empty
string are falsy). -/
def truthyDesc : Option String → Bool
  | none => false
  | some s => s != ""

/-- An exception raised by an external provider; the services swallow these. -/
inductive PyExc where
  | err
deriving DecidableEq

/-- The merge step of `ContentLookupService.lookup`: starting from the Google
Books result, fill in `pages` and `description` from Goodreads only when the
current value is falsy and the Goodreads value is truthy. -/
def mergeBooks (g gr : Book) : Book :=
  let m1 := if !truthyPages g.pages && truthyPages gr.pages then { g with pages := gr.pages } else g
  if !truthyDesc m1.description && truthyDesc gr.description then { m1 with description := gr.description } else m1

/-- Model of `ContentLookupService.lookup`: each provider outcome is either an
exception (swallowed, treated as no result) or an optional `Book`; the Google
Books result is merged with the Goodreads result, a lone Goodreads result is
returned unmodified, and total failure yields `none`. -/
def content_lookup (google goodreads : Except PyExc (Option Book)) : Option Book :=
  let googleRes : Option Book := match google with | .ok r => r | .error _ => none
  let goodreadsRes : Option Book := match goodreads with | .ok r => r | .error _ => none
  match googleRes, goodreadsRes with
  | some g, some gr => some (mergeBooks g gr)
  | some g, none => some g
  | none, r => r

/-- A cover provider as `CoverLookupService.download_cover` sees it: whether it
is the AI generator (`isinstance(s, AICoverGeneratorService)`), and the outcome
of its `download_cover` call. -/
structure CoverProvider where
  isAI : Bool
  outcome : Except PyExc (Option String)
deriving DecidableEq

/-- One tier of `CoverLookupService.download_cover`: try providers in order,
treating an exception or an empty result as no result, returning the first
non-empty path. -/
def tryProviders : List CoverProvider → Option String
  | [] => none
  | p :: rest =>
    match p.outcome with
    | .ok (some path) => some path
    | .ok none => tryProviders rest
    | .error _ => tryProviders rest

/-- Model of `CoverLookupService.download_cover`: all non-AI providers are
tried first; only if none produced a path is the AI tier tried; `none` when
everything fails. -/
def download_cover (services : List CoverProvider) : Option String :=
  let nonAI := services.filter (fun s => !s.isAI)
  let ai := services.filter (fun s => s.isAI)
  match tryProviders nonAI with
  | some path => some path
  | none => if ai.isEmpty then none else tryProviders ai

/-! ## Claims about the text-bounds calculator -/

/-- Claim C2: for every x, width and anchor, the text-bounds calculator
returns edges whose difference is the width; the left edge is x for `start`
and for any unrecognized anchor, the right edge is x for `end`, and the
midpoint of the edges is x for `middle`. -/
theorem calculate_text_bounds_spec (x w : ℚ) (anchor : List Char) :
    ((calculate_text_bounds x w anchor).2 - (calculate_text_bounds x w anchor).1 = w)
    ∧ (anchor = "middle".data →
        ((calculate_text_bounds x w anchor).1 + (calculate_text_bounds x w anchor).2) / 2 = x)
    ∧ (anchor = "end".data → (calculate_text_bounds x w anchor).2 = x)
    ∧ (anchor ≠ "middle".data → anchor ≠ "end".data →
        (calculate_text_bounds x w anchor).1 = x) := by
  unfold calculate_text_bounds
  split_ifs with h1 h2
  · refine ⟨show x + w/2 - (x - w/2) = w by ring,
      fun _ => show ((x - w/2) + (x + w/2)) / 2 = x by ring,
      fun h => absurd (h1.symm.trans h) (by decide),
      fun hm _ => absurd h1 hm⟩
  · exact ⟨show x - (x - w) = w by ring, fun hm => absurd hm h1, fun _ => rfl,
      fun _ he => absurd h2 he⟩
  · exact ⟨show x + w - x = w by ring, fun hm => absurd hm h1, fun he => absurd he h2,
      fun _ _ => rfl⟩

/-- Witness for C2 at x = 5, w = 4, anchor `middle`. -/
theorem calculate_text_bounds_spec_witness :
    ((calculate_text_bounds 5 4 "middle".data).1 + (calculate_text_bounds 5 4 "middle".data).2) / 2 = 5 :=
  (calculate_text_bounds_spec 5 4 "middle".data).2.1 rfl

/-! ## Claims about `fix_overflow` as a whole -/

/-- Claim C3: `fix_overflow` never lets an internal failure escape — whenever
the body raises, the original markup is returned unchanged. -/
theorem fix_overflow_fail_safe (svg svgType : List Char) (er : PyErr)
    (h : fix_overflow_except svg svgType = .error er) :
    fix_overflow svg svgType = svg := by
  unfold fix_overflow
  rw [h]

/-- Witness for C3: a `font-size` attribute whose first digit run `1.2.3` makes
`float()` raise ValueError inside `_extract_font_size`; the body errors and the
input comes back unchanged. -/
theorem fix_overflow_fail_safe_witness :
    fix_overflow_except "<text x=\"5\" font-size=\"1.2.3\">Hi</text>".data "cover".data
      = .error .valueError
    ∧ fix_overflow "<text x=\"5\" font-size=\"1.2.3\">Hi</text>".data "cover".data
      = "<text x=\"5\" font-size=\"1.2.3\">Hi</text>".data :=
  ⟨by decide!, fix_overflow_fail_safe _ _ .valueError (by decide!)⟩

/-- Claim C10: every kind other than the exact string `banner` selects the
cover canvas (width 236, margin 10), and the kind is never rejected. -/
theorem fix_overflow_default_cover (svg svgType : List Char) (h : svgType ≠ "banner".data) :
    fix_overflow_except svg svgType = fix_overflow_core 236 10 svg
    ∧ fix_overflow svg svgType = fix_overflow svg "cover".data := by
  have h1 : fix_overflow_except svg svgType = fix_overflow_core 236 10 svg := by
    unfold fix_overflow_except
    rw [if_neg h]
  have h2 : fix_overflow_except svg "cover".data = fix_overflow_core 236 10 svg := by
    unfold fix_overflow_except
    rw [if_neg (by decide)]
  refine ⟨h1, ?_⟩
  unfold fix_overflow
  rw [h1, h2]

/-- Witness for C10 with the unrecognized kind `logo`. -/
theorem fix_overflow_default_cover_witness :
    fix_overflow_except "<svg></svg>".data "logo".data = fix_overflow_core 236 10 "<svg></svg>".data
    ∧ fix_overflow "<svg></svg>".data "logo".data = fix_overflow "<svg></svg>".data "cover".data :=
  fix_overflow_default_cover _ _ (by decide)

/-- If no element of the match list is flagged, the correction loop leaves the
accumulated document untouched (or propagates an internal error). -/
theorem fixLoop_no_flag (cw mg : ℚ) (ms : List (List Char)) :
    ∀ acc : List Char, (∀ m ∈ ms, appears_to_overflow m cw mg ≠ .ok true) →
      fixLoop cw mg ms acc = .ok acc ∨ ∃ er, fixLoop cw mg ms acc = .error er := by
  induction ms with
  | nil => intro acc _; left; rfl
  | cons m rest ih =>
    intro acc h
    cases hap : appears_to_overflow m cw mg with
    | error er =>
      right
      exact ⟨er, by simp only [fixLoop, hap]⟩
    | ok b =>
      cases b with
      | true => exact absurd hap (h m (List.mem_cons_self m rest))
      | false =>
        have hstep : fixLoop cw mg (m :: rest) acc = fixLoop cw mg rest acc := by
          simp only [fixLoop, hap]
        rw [hstep]
        exact ih acc fun m' hm' => h m' (List.mem_cons_of_mem m hm')

/-- A document in which the detector flags nothing passes through
`fix_overflow` byte-for-byte. -/
theorem fix_overflow_no_flag_eq (svg svgType : List Char)
    (h : ∀ m ∈ find_text_elements svg,
      appears_to_overflow m (if svgType = "banner".data then (1024 : ℚ) else 236) 10 ≠ .ok true) :
    fix_overflow svg svgType = svg := by
  unfold fix_overflow fix_overflow_except fix_overflow_core
  rcases fixLoop_no_flag (if svgType = "banner".data then (1024 : ℚ) else 236) 10
      (find_text_elements svg) svg h with h1 | ⟨er, h1⟩ <;> rw [h1]

/-- Claim C4: if no text element of the document violates the safe-boundary
inequalities for the kind's canvas, `fix_overflow` returns the document
byte-for-byte unchanged. -/
theorem fix_overflow_no_overflow_id (svg svgType : List Char)
    (h : ∀ m ∈ find_text_elements svg,
      appears_to_overflow m (if svgType = "banner".data then (1024 : ℚ) else 236) 10 ≠ .ok true) :
    fix_overflow svg svgType = svg :=
  fix_overflow_no_flag_eq svg svgType h

/-- Witness for C4: the in-bounds banner element from the spec's own scenario
(width estimate 336, edges 564 and 900, inside the safe region of 10 to 1014). -/
theorem fix_overflow_no_overflow_id_witness :
    fix_overflow "<text x=\"900\" font-size=\"40\" text-anchor=\"end\">Banner Title</text>".data
        "banner".data
      = "<text x=\"900\" font-size=\"40\" text-anchor=\"end\">Banner Title</text>".data :=
  fix_overflow_no_overflow_id _ _ (by decide!)

/-- Claim C1, counterexample: the corrector is not idempotent. An element with
a declared `textLength` of 300 on the cover canvas is repositioned and shrunk
on the first pass, but shrinking cannot change its declared width, so the
second pass repositions it again and shrinks it further. -/
theorem fix_overflow_not_idempotent :
    fix_overflow (fix_overflow "<text x=\"0\" textLength=\"300\">Hi</text>".data "cover".data)
        "cover".data
      ≠ fix_overflow "<text x=\"0\" textLength=\"300\">Hi</text>".data "cover".data := by
  decide!

/-- Claim C1, amended: `fix_overflow` is idempotent on every document whose
first corrective pass leaves no element flagged by the detector — on such
output a second application is byte-for-byte the identity. -/
theorem fix_overflow_idempotent_of_fixed (svg svgType : List Char)
    (h : ∀ m ∈ find_text_elements (fix_overflow svg svgType),
      appears_to_overflow m (if svgType = "banner".data then (1024 : ℚ) else 236) 10 ≠ .ok true) :
    fix_overflow (fix_overflow svg svgType) svgType = fix_overflow svg svgType :=
  fix_overflow_no_flag_eq (fix_overflow svg svgType) svgType h

/-- Witness for amended C1: the spec's `Hello World` cover scenario, fully
corrected by repositioning in one pass. -/
theorem fix_overflow_idempotent_of_fixed_witness :
    fix_overflow
        (fix_overflow "<text x=\"5\" font-size=\"16\" text-anchor=\"start\">Hello World</text>".data
          "cover".data) "cover".data
      = fix_overflow "<text x=\"5\" font-size=\"16\" text-anchor=\"start\">Hello World</text>".data
          "cover".data :=
  fix_overflow_idempotent_of_fixed _ _ (by decide!)

/-! ## Claims about the two correction phases -/

/-- Claim C5: phase-1 repositioning computes the anchor-aware inverse of the
bounds formula — when the left edge violates the margin the new x places the
left edge exactly on the safe boundary, when only the right edge violates it
the new x places the right edge exactly on it, otherwise x is unchanged — and
the new x is written (one decimal place) only when it moves by more than 0.1. -/
theorem try_reposition_spec (e : List Char) (cw mg : ℚ) (xs : List Char) (x w : ℚ)
    (hx : reCaptureQuoted xAttrMarker e = some xs)
    (hp : parseFloat xs = some x)
    (hw : get_text_width e = .ok w) :
    ∃ newX : ℚ,
      try_reposition e cw mg =
        .ok (if |newX - x| > 1/10 then replaceAll (xAttrStr xs) (xAttrStr (format1 newX)) e else e)
      ∧ ((calculate_text_bounds x w (extract_text_anchor e)).1 < mg →
          (calculate_text_bounds newX w (extract_text_anchor e)).1 = mg)
      ∧ (¬ (calculate_text_bounds x w (extract_text_anchor e)).1 < mg →
          (calculate_text_bounds x w (extract_text_anchor e)).2 > cw - mg →
          (calculate_text_bounds newX w (extract_text_anchor e)).2 = cw - mg)
      ∧ (¬ (calculate_text_bounds x w (extract_text_anchor e)).1 < mg →
          ¬ (calculate_text_bounds x w (extract_text_anchor e)).2 > cw - mg →
          newX = x) := by
  have h := try_reposition.eq_def e cw mg
  rw [hx] at h
  dsimp only at h
  rw [hp] at h
  dsimp only at h
  rw [hw] at h
  dsimp only at h
  rw [h]
  refine ⟨if (calculate_text_bounds x w (extract_text_anchor e)).1 < mg then
            if extract_text_anchor e = "middle".data then mg + w / 2
            else if extract_text_anchor e = "end".data then mg + w else mg
          else if (calculate_text_bounds x w (extract_text_anchor e)).2 > cw - mg then
            if extract_text_anchor e = "middle".data then cw - mg - w / 2
            else if extract_text_anchor e = "end".data then cw - mg else cw - mg - w
          else x, ?_, ?_, ?_, ?_⟩
  · split_ifs <;> rfl
  · intro hl
    rw [if_pos hl]
    unfold calculate_text_bounds
    split_ifs with hm he
    · show mg + w/2 - w/2 = mg
      ring
    · show mg + w - w = mg
      ring
    · rfl
  · intro hl hr
    rw [if_neg hl, if_pos hr]
    unfold calculate_text_bounds
    split_ifs with hm he
    · show cw - mg - w/2 + w/2 = cw - mg
      ring
    · rfl
    · show cw - mg - w + w = cw - mg
      ring
  · intro hl hr
    rw [if_neg hl, if_neg hr]

/-- Witness for C5: the spec's `Hello World` cover element (x = 5, estimated
width 123.2, anchor `start`), repositioned onto the left boundary. -/
theorem try_reposition_spec_witness :
    ∃ newX : ℚ,
      try_reposition "<text x=\"5\" font-size=\"16\" text-anchor=\"start\">Hello World</text>".data
          236 10 =
        .ok (if |newX - 5| > 1/10 then
              replaceAll (xAttrStr "5".data) (xAttrStr (format1 newX))
                "<text x=\"5\" font-size=\"16\" text-anchor=\"start\">Hello World</text>".data
             else "<text x=\"5\" font-size=\"16\" text-anchor=\"start\">Hello World</text>".data)
      ∧ ((calculate_text_bounds 5 (616/5)
            (extract_text_anchor
              "<text x=\"5\" font-size=\"16\" text-anchor=\"start\">Hello World</text>".data)).1 < 10 →
          (calculate_text_bounds newX (616/5)
            (extract_text_anchor
              "<text x=\"5\" font-size=\"16\" text-anchor=\"start\">Hello World</text>".data)).1 = 10)
      ∧ (¬ (calculate_text_bounds 5 (616/5)
            (extract_text_anchor
              "<text x=\"5\" font-size=\"16\" text-anchor=\"start\">Hello World</text>".data)).1 < 10 →
          (calculate_text_bounds 5 (616/5)
            (extract_text_anchor
              "<text x=\"5\" font-size=\"16\" text-anchor=\"start\">Hello World</text>".data)).2 > 236 - 10 →
          (calculate_text_bounds newX (616/5)
            (extract_text_anchor
              "<text x=\"5\" font-size=\"16\" text-anchor=\"start\">Hello World</text>".data)).2 = 236 - 10)
      ∧ (¬ (calculate_text_bounds 5 (616/5)
            (extract_text_anchor
              "<text x=\"5\" font-size=\"16\" text-anchor=\"start\">Hello World</text>".data)).1 < 10 →
          ¬ (calculate_text_bounds 5 (616/5)
            (extract_text_anchor
              "<text x=\"5\" font-size=\"16\" text-anchor=\"start\">Hello World</text>".data)).2 > 236 - 10 →
          newX = 5) :=
  try_reposition_spec _ 236 10 "5".data 5 (616/5) (by decide!) (by decide!) (by decide!)

/-- Claim C6: when the repositioned element still appears to overflow, the
single corrective pass applies exactly one font shrink, writing back the size
max(oldSize * 0.9, 10), which is never below 10. -/
theorem font_reduction_floor (e e₁ : List Char) (cw mg : ℚ) (s : ℚ)
    (h1 : try_reposition e cw mg = .ok e₁)
    (h2 : appears_to_overflow e₁ cw mg = .ok true)
    (h3 : extract_font_size e₁ = .ok s) :
    apply_minimal_fix e cw mg = .ok (writeBackFont e₁ (max (s * (9/10)) 10))
    ∧ try_font_reduction e₁ = .ok (writeBackFont e₁ (max (s * (9/10)) 10))
    ∧ 10 ≤ max (s * (9/10)) 10 := by
  have hf : try_font_reduction e₁ = .ok (writeBackFont e₁ (max (s * (9/10)) 10)) := by
    simp only [try_font_reduction, h3]
  refine ⟨?_, hf, le_max_right _ _⟩
  simp only [apply_minimal_fix, h1, h2, hf]

/-- Witness for C6: a cover element with a declared `textLength` of 300 that
repositioning cannot fit; the default font size 16 is shrunk to 14.4. -/
theorem font_reduction_floor_witness :
    apply_minimal_fix "<text x=\"10.0\" textLength=\"300\">Hi</text>".data 236 10
      = .ok (writeBackFont "<text x=\"-74.0\" textLength=\"300\">Hi</text>".data (max (16 * (9/10)) 10))
    ∧ try_font_reduction "<text x=\"-74.0\" textLength=\"300\">Hi</text>".data
      = .ok (writeBackFont "<text x=\"-74.0\" textLength=\"300\">Hi</text>".data (max (16 * (9/10)) 10))
    ∧ 10 ≤ max ((16:ℚ) * (9/10)) 10 :=
  font_reduction_floor _ _ 236 10 16 (by decide!) (by decide!) (by decide!)

/-- Claim C7, counterexample: on an element carrying a `style` attribute with
no `font-size:` declaration and no `font-size` attribute — so neither location
originally carried the size — the shrink appends the declaration to the
`style` attribute instead of injecting a new `font-size` attribute. -/
theorem font_write_back_no_attr_injected :
    try_font_reduction "<text x=\"0\" style=\"fill:red\">Hi</text>".data
      = .ok "<text x=\"0\" style=\"fill:red;font-size:14.4px\">Hi</text>".data
    ∧ reCaptureQuoted fsAttrMarker "<text x=\"0\" style=\"fill:red\">Hi</text>".data = none
    ∧ searchStyleFS "fill:red".data.length "fill:red".data = none
    ∧ reCaptureQuoted fsAttrMarker "<text x=\"0\" style=\"fill:red;font-size:14.4px\">Hi</text>".data
      = none := by
  refine ⟨?_, ?_, ?_, ?_⟩ <;> decide!

/-- Claim C7, amended: the shrunk size is written to the `font-size` attribute
if one exists, else into the `style` attribute — replacing its `font-size:`
declaration when present and appending one otherwise — and a new `font-size`
attribute is injected only when the element has neither a `font-size` attribute
nor a `style` attribute. -/
theorem font_write_back_location (e : List Char) (s : ℚ)
    (h : extract_font_size e = .ok s) :
    try_font_reduction e = .ok (writeBackFont e (max (s * (9/10)) 10))
    ∧ (∀ cap, reCaptureQuoted fsAttrMarker e = some cap →
        writeBackFont e (max (s * (9/10)) 10)
          = replaceAll (fsAttrStr cap)
              (fsAttrStr (pyFloatStr (max (s * (9/10)) 10) ++ "px".data)) e)
    ∧ (reCaptureQuoted fsAttrMarker e = none →
        ∀ style, reCaptureQuoted styleAttrMarker e = some style →
          writeBackFont e (max (s * (9/10)) 10)
            = replaceAll (styleAttrStr style)
                (styleAttrStr
                  (if containsSub "font-size:".data style then
                    subFontSize ("font-size:".data ++ pyFloatStr (max (s * (9/10)) 10) ++ "px".data)
                      style
                  else
                    rstripSemi style ++ ";font-size:".data
                      ++ pyFloatStr (max (s * (9/10)) 10) ++ "px".data)) e)
    ∧ (reCaptureQuoted fsAttrMarker e = none →
        reCaptureQuoted styleAttrMarker e = none →
          writeBackFont e (max (s * (9/10)) 10)
            = replaceAll "<text".data
                ("<text font-size=\"".data ++ pyFloatStr (max (s * (9/10)) 10) ++ "px\"".data) e) := by
  refine ⟨by simp only [try_font_reduction, h], ?_, ?_, ?_⟩
  · intro cap hc
    simp only [writeBackFont, hc]
  · intro hn style hs
    simp only [writeBackFont, hn, hs]
    by_cases hc : containsSub "font-size:".data style
    · rw [if_pos hc, if_pos hc]
    · rw [if_neg hc, if_neg hc]
  · intro hn hs
    simp only [writeBackFont, hn, hs]

/-- Witness for amended C7: an element whose `font-size` attribute carries the
size; the shrink rewrites that attribute. -/
theorem font_write_back_location_witness :
    try_font_reduction "<text font-size=\"20\" x=\"0\">Hi</text>".data
      = .ok (writeBackFont "<text font-size=\"20\" x=\"0\">Hi</text>".data (max (20 * (9/10)) 10))
    ∧ writeBackFont "<text font-size=\"20\" x=\"0\">Hi</text>".data (max ((20:ℚ) * (9/10)) 10)
      = replaceAll (fsAttrStr "20".data)
          (fsAttrStr (pyFloatStr (max ((20:ℚ) * (9/10)) 10) ++ "px".data))
          "<text font-size=\"20\" x=\"0\">Hi</text>".data :=
  ⟨(font_write_back_location _ 20 (by decide!)).1,
   (font_write_back_location _ 20 (by decide!)).2.1 "20".data (by decide!)⟩

/-! ## Claims about the lookup services -/

/-- Claim C8: when both providers return a Book, the merge starts from the
primary (Google Books) record, copies only `pages` and `description` from the
secondary, and only when the primary's own field is empty/absent (falsy); a
non-empty primary field is never overwritten; a lone secondary result is
returned unmodified; total failure yields not-found. -/
theorem content_lookup_merge_spec (g gr : Book) (e : PyExc) :
    content_lookup (.ok (some g)) (.ok (some gr)) = some (mergeBooks g gr)
    ∧ (mergeBooks g gr).isbn = g.isbn
    ∧ (mergeBooks g gr).title = g.title
    ∧ (mergeBooks g gr).author = g.author
    ∧ (mergeBooks g gr).publication_year = g.publication_year
    ∧ (truthyPages g.pages = true → (mergeBooks g gr).pages = g.pages)
    ∧ (truthyPages g.pages = false → truthyPages gr.pages = true →
        (mergeBooks g gr).pages = gr.pages)
    ∧ (truthyPages g.pages = false → truthyPages gr.pages = false →
        (mergeBooks g gr).pages = g.pages)
    ∧ (truthyDesc g.description = true → (mergeBooks g gr).description = g.description)
    ∧ (truthyDesc g.description = false → truthyDesc gr.description = true →
        (mergeBooks g gr).description = gr.description)
    ∧ (truthyDesc g.description = false → truthyDesc gr.description = false →
        (mergeBooks g gr).description = g.description)
    ∧ content_lookup (.error e) (.ok (some gr)) = some gr
    ∧ content_lookup (.ok none) (.ok (some gr)) = some gr
    ∧ content_lookup (.error e) (.error e) = none
    ∧ content_lookup (.ok none) (.ok none) = none
    ∧ content_lookup (.error e) (.ok none) = none
    ∧ content_lookup (.ok none) (.error e) = none := by
  refine ⟨rfl, ?_, ?_, ?_, ?_, ?_, ?_, ?_, ?_, ?_, ?_, rfl, rfl, rfl, rfl, rfl, rfl⟩ <;>
    unfold mergeBooks <;>
    cases hp : truthyPages g.pages <;> cases hq : truthyPages gr.pages <;>
    cases hd : truthyDesc g.description <;> cases he : truthyDesc gr.description <;>
    simp_all

/-- Witness for C8 at the spec's own example: primary has no page count and
description d1, secondary has 42 pages and description d2; the merge takes the
secondary's pages and keeps the primary's description. -/
theorem content_lookup_merge_spec_witness :
    (mergeBooks (Book.mk "i" "t" "a" none none (some "d1"))
        (Book.mk "i2" "t2" "a2" none (some 42) (some "d2"))).pages = some 42
    ∧ (mergeBooks (Book.mk "i" "t" "a" none none (some "d1"))
        (Book.mk "i2" "t2" "a2" none (some 42) (some "d2"))).description = some "d1" :=
  ⟨(content_lookup_merge_spec (Book.mk "i" "t" "a" none none (some "d1"))
      (Book.mk "i2" "t2" "a2" none (some 42) (some "d2")) PyExc.err).2.2.2.2.2.2.1 rfl rfl,
   (content_lookup_merge_spec (Book.mk "i" "t" "a" none none (some "d1"))
      (Book.mk "i2" "t2" "a2" none (some 42) (some "d2")) PyExc.err).2.2.2.2.2.2.2.2.1 rfl⟩

/-- One-tier scanning over a concatenation: the second tier is consulted only
when the first produced nothing. -/
theorem tryProviders_append (xs ys : List CoverProvider) :
    tryProviders (xs ++ ys) =
      match tryProviders xs with
      | some p => some p
      | none => tryProviders ys := by
  induction xs with
  | nil => rfl
  | cons p rest ih =>
    cases hp : p.outcome with
    | error er => simpa only [List.cons_append, tryProviders, hp] using ih
    | ok r =>
      cases r with
      | none => simpa only [List.cons_append, tryProviders, hp] using ih
      | some path => simp only [List.cons_append, tryProviders, hp]

/-- A tier in which no provider returns a path yields nothing. -/
theorem tryProviders_none (l : List CoverProvider)
    (h : ∀ s ∈ l, ∀ p, s.outcome ≠ .ok (some p)) : tryProviders l = none := by
  induction l with
  | nil => rfl
  | cons s rest ih =>
    cases hp : s.outcome with
    | error er =>
      simp only [tryProviders, hp]
      exact ih fun s' hs' => h s' (List.mem_cons_of_mem s hs')
    | ok r =>
      cases r with
      | none =>
        simp only [tryProviders, hp]
        exact ih fun s' hs' => h s' (List.mem_cons_of_mem s hs')
      | some path => exact absurd hp (h s (List.mem_cons_self s rest) path)

/-- Claim C9: the cover lookup tries every regular (non-AI) provider before
any generative provider — it scans the non-AI tier followed by the AI tier in
order and returns the first non-empty result; a provider exception is
equivalent to no result from that provider; and when every provider fails or
returns nothing the outcome is not-found rather than an error. -/
theorem cover_lookup_first_success (services : List CoverProvider) :
    download_cover services =
      tryProviders (services.filter (fun s => !s.isAI) ++ services.filter (fun s => s.isAI))
    ∧ (∀ b er rest, tryProviders (CoverProvider.mk b (.error er) :: rest) = tryProviders rest)
    ∧ (∀ b path rest, tryProviders (CoverProvider.mk b (.ok (some path)) :: rest) = some path)
    ∧ ((∀ s ∈ services, ∀ p, s.outcome ≠ .ok (some p)) → download_cover services = none) := by
  refine ⟨?_, fun b er rest => rfl, fun b path rest => rfl, ?_⟩
  · rw [tryProviders_append]
    unfold download_cover
    cases hn : tryProviders (services.filter (fun s => !s.isAI)) with
    | some path => simp only [hn]
    | none =>
      cases hai : (services.filter (fun s => s.isAI)).isEmpty with
      | true =>
        simp only [hn, hai, if_true]
        rw [List.isEmpty_iff.mp hai]
        rfl
      | false => simp only [hn, hai, Bool.false_eq_true, if_false]
  · intro h
    have h1 : tryProviders (services.filter (fun s => !s.isAI)) = none :=
      tryProviders_none _ fun s hs p => h s (List.mem_of_mem_filter hs) p
    have h2 : tryProviders (services.filter (fun s => s.isAI)) = none :=
      tryProviders_none _ fun s hs p => h s (List.mem_of_mem_filter hs) p
    unfold download_cover
    simp only [h1, h2]
    split_ifs <;> rfl

/-- Witness for C9: a chain in which the regular providers raise or return
nothing and the AI provider also returns nothing yields not-found. -/
theorem cover_lookup_first_success_witness :
    download_cover
      [CoverProvider.mk false (.error .err), CoverProvider.mk false (.ok none),
       CoverProvider.mk true (.ok none)] = none :=
  (cover_lookup_first_success
    [CoverProvider.mk false (.error .err), CoverProvider.mk false (.ok none),
     CoverProvider.mk true (.ok none)]).2.2.2 (by
    intro s hs p
    cases hs with
    | head => exact fun hcon => Except.noConfusion hcon
    | tail _ hs =>
      cases hs with
      | head => exact fun hcon => Option.noConfusion (Except.ok.inj hcon)
      | tail _ hs =>
        cases hs with
        | head => exact fun hcon => Option.noConfusion (Except.ok.inj hcon)
        | tail _ hs => cases hs)
